import Mathlib

/-!
Verification of the Failure Classifier of the SpotDL_Wrape repository.

The classifier is `parse_failed_downloads` in `spotdl_downloader.py`
(lines 196-245), duplicated as `SpotdlGuiApp._parse_failed_downloads` in
`spotdl_gui/app.py` (lines 356-391).  Both copies compile two regular
expressions and run one cursor over the list of output lines:

  explicit_failure_pattern =
    .*?(?:Could not find a match for:|Failed to download|Track found but download failed):\s*(.*?)(?::.*)?$
  youtube_url_pattern =
    https?://(?:www\.)?(?:music\.)?youtube\.com/watch\?v=[\w-]+

The embedding below models lines as `List Char` (a Lean `String` is a
packed `List Char`).  Python semantics notes used by the translation:

* In the explicit pattern the first alternative already ends in a colon
  and the group is followed by a further mandatory colon, so a match
  requires one of the literal strings
  "Could not find a match for::", "Failed to download:" or
  "Track found but download failed:" to occur in the line.  `re.search`
  with the leading lazy `.*?` picks the earliest such occurrence whose
  tail matches `\s*(.*?)(?::.*)?$`; the three extended markers begin with
  distinct characters, so at most one fits at a given position.
* In `\s*(.*?)(?::.*)?$`, `\s*` is greedy, the capture is lazy and `.`
  does not cross a newline, `(?:...)?` prefers the colon branch, and `$`
  matches at the end of the string or just before a final newline.  The
  resulting capture is the text after the marker, with leading whitespace
  removed, cut at the first colon; a newline can make the tail fail at an
  occurrence, in which case the search moves to a later occurrence.
* Character classes `\s`, `\w` and `str.strip` are modelled over their
  ASCII content ( `\s` = space, tab, newline, carriage return, vertical
  tab, form feed; `\w` = letters, digits, underscore); Python is
  additionally Unicode-aware there, which no claim depends on.
* `sorted(list(failed_songs))` where `failed_songs` is a `set` returns
  the strictly increasing enumeration (by code-point lexicographic
  order) of the distinct recorded strings; it is modelled as
  `insertionSort` of `dedup`, which produces the same list.
-/

namespace SpotdlWrape

/-- ASCII content of Python regex class `\s` and of `str.strip`. -/
def pyIsSpace (c : Char) : Bool :=
  c = ' ' || c = '\t' || c = '\n' || c = '\r' || c = Char.ofNat 11 || c = Char.ofNat 12

/-- Python `str.strip()`: remove leading and trailing whitespace. -/
def pyStrip (s : List Char) : List Char :=
  ((s.dropWhile pyIsSpace).reverse.dropWhile pyIsSpace).reverse

/-- Boolean list-prefix test (`str.startswith`). -/
def isPrefixList : List Char → List Char → Bool
  | [], _ => true
  | _ :: _, [] => false
  | a :: as, b :: bs => a = b && isPrefixList as bs

/-- Python substring test `needle in hay`. -/
def containsSub (needle : List Char) : List Char → Bool
  | [] => isPrefixList needle []
  | c :: t => isPrefixList needle (c :: t) || containsSub needle t

/-- Tail of the explicit pattern, `\s*(.*?)(?::.*)?$`, applied after an
extended marker: `acc` holds the (reversed) capture built so far, the
second argument is the rest of the line after the greedy `\s*`.
Returns the capture group, or `none` when the tail cannot match at this
occurrence (possible only when a newline blocks `$`). -/
def captureFrom : List Char → List Char → Option (List Char)
  | acc, [] => some acc.reverse
  | acc, c :: u =>
    if c = ':' && !(u.dropLast.contains '\n') then some acc.reverse
    else if c = '\n' && u = [] then some acc.reverse
    else if c = '\n' then none
    else captureFrom (c :: acc) u

/-- The three marker strings each extended by the mandatory colon that
follows the alternation group in `explicit_failure_pattern`.  The first
alternative of the source pattern itself ends in a colon, hence the
double colon. -/
def extendedMarkers : List (List Char) :=
  ["Could not find a match for::".data,
   "Failed to download:".data,
   "Track found but download failed:".data]

/-- If an extended marker starts at the head of `l`, the rest of `l`
after it (markers begin with distinct characters, so at most one fits). -/
def markerRest (l : List Char) : Option (List Char) :=
  extendedMarkers.findSome? (fun m =>
    if isPrefixList m l then some (l.drop m.length) else none)

/-- `explicit_failure_pattern.search(line).group(1)`: scan the positions
of the line left to right; at the first occurrence of an extended marker
whose tail matches, return the capture group. -/
def explicitGroup1 : List Char → Option (List Char)
  | [] => none
  | l@(_ :: t) =>
    match markerRest l with
    | some rest =>
      match captureFrom [] (rest.dropWhile pyIsSpace) with
      | some cap => some cap
      | none => explicitGroup1 t
    | none => explicitGroup1 t

/-- ASCII content of Python regex class `[\w-]`. -/
def wordChar (c : Char) : Bool :=
  c.isAlphanum || c = '_' || c = '-'

/-- Match a literal at the head of `s` and drop it. -/
def dropLit (p : String) (s : List Char) : Option (List Char) :=
  if isPrefixList p.data s then some (s.drop p.data.length) else none

/-- Greedily match an optional literal at the head of `s`. -/
def dropOpt (p : String) (s : List Char) : List Char :=
  if isPrefixList p.data s then s.drop p.data.length else s

/-- `youtube_url_pattern` anchored at the head of `l`: returns the
matched text (group 0).  All optional parts of the pattern are
deterministic: taking `s`, `www.` or `music.` can never be the reason a
match fails, because the following literals begin with other letters. -/
def urlMatchAt (l : List Char) : Option (List Char) :=
  match (match dropLit "https://" l with
         | some r => some r
         | none => dropLit "http://" l) with
  | none => none
  | some r1 =>
    let r2 := dropOpt "www." r1
    let r3 := dropOpt "music." r2
    match dropLit "youtube.com/watch?v=" r3 with
    | none => none
    | some r4 =>
      let run := r4.takeWhile wordChar
      if run = [] then none
      else some (l.take (l.length - (r4.drop run.length).length))

/-- `youtube_url_pattern.search(line).group(0)`: leftmost match. -/
def urlSearch : List Char → Option (List Char)
  | [] => none
  | l@(_ :: t) =>
    match urlMatchAt l with
    | some u => some u
    | none => urlSearch t

/-- The inner `for j in range(i, min(i + 4, len(output_lines)))` loop:
first URL found scanning the window lines in forward order. -/
def firstUrlInWindow : List (List Char) → Option (List Char)
  | [] => none
  | l :: ls =>
    match urlSearch l with
    | some u => some u
    | none => firstUrlInWindow ls

/-- The literal substring tested by `"AudioProviderError:" in line`. -/
def audioProviderMarker : List Char := "AudioProviderError:".data

/-- ASCII apostrophe (kept out of string literals on purpose). -/
def squote : Char := Char.ofNat 39

/-- `f"Download failed for YouTube URL: {yt_url} (AudioProviderError)"`. -/
def urlRecord (u : List Char) : List Char :=
  "Download failed for YouTube URL: ".data ++ u ++ " (AudioProviderError)".data

/-- The fixed part of the generic fallback record, up to and including
the opening apostrophe. -/
def fallbackMarker : List Char :=
  "Download failed due to AudioProviderError (details in log: ".data ++ [squote]

/-- `f"Download failed due to AudioProviderError (details in log: '{line}')"`. -/
def fallbackRecord (line : List Char) : List Char :=
  fallbackMarker ++ line ++ [squote, ')']

/-- The `while i < len(output_lines)` loop of `parse_failed_downloads`,
collecting the strings passed to `failed_songs.add` in scan order.  The
lookahead window `output_lines[i : min(i + 4, len(output_lines))]` is the
first four elements of the current suffix. -/
def scanLoop : List (List Char) → List (List Char)
  | [] => []
  | line :: rest =>
    match explicitGroup1 line with
    | some g =>
      let song_info := pyStrip g
      if song_info = [] then scanLoop rest else song_info :: scanLoop rest
    | none =>
      if containsSub audioProviderMarker line then
        match firstUrlInWindow ((line :: rest).take 4) with
        | some u => urlRecord u :: scanLoop rest
        | none => fallbackRecord line :: scanLoop rest
      else scanLoop rest

/-- The records produced while the cursor sits on `line` (with `rest`
the lines after it); the loop then continues on `rest` alone. -/
def stepRecords (line : List Char) (rest : List (List Char)) : List (List Char) :=
  match explicitGroup1 line with
  | some g =>
    let song_info := pyStrip g
    if song_info = [] then [] else [song_info]
  | none =>
    if containsSub audioProviderMarker line then
      match firstUrlInWindow ((line :: rest).take 4) with
      | some u => [urlRecord u]
      | none => [fallbackRecord line]
    else []

/-- Python string comparison `a <= b`: lexicographic by code point. -/
def strLe : List Char → List Char → Bool
  | [], _ => true
  | _ :: _, [] => false
  | x :: xs, y :: ys =>
    if x < y then true else if y < x then false else strLe xs ys

/-- `strLe` as a relation on `String` (kernel-computable, unlike the
tactic-built `String.decidableLE` instance). -/
def recordLe (a b : String) : Prop := strLe a.data b.data = true

instance : DecidableRel recordLe :=
  fun a b => (inferInstance : Decidable (strLe a.data b.data = true))

/-- `parse_failed_downloads` of `spotdl_downloader.py` (lines 196-245):
run the scan loop, then `sorted(list(failed_songs))` — the strictly
increasing (code-point lexicographic) enumeration of the distinct
recorded strings. -/
def parse_failed_downloads (output_lines : List String) : List String :=
  List.insertionSort recordLe
    (((scanLoop (output_lines.map String.data)).map (fun cs => String.mk cs)).dedup)

/-- `SpotdlGuiApp._parse_failed_downloads` of `spotdl_gui/app.py`
(lines 356-391) compiles the same two patterns and runs the same loop;
its scan loop is embedded separately so that the equivalence of the two
front-end copies is a theorem, not a definition. -/
def guiScanLoop : List (List Char) → List (List Char)
  | [] => []
  | line :: rest =>
    match explicitGroup1 line with
    | some g =>
      let song_info := pyStrip g
      if song_info = [] then guiScanLoop rest else song_info :: guiScanLoop rest
    | none =>
      if containsSub audioProviderMarker line then
        match firstUrlInWindow ((line :: rest).take 4) with
        | some u => urlRecord u :: guiScanLoop rest
        | none => fallbackRecord line :: guiScanLoop rest
      else guiScanLoop rest

/-- `SpotdlGuiApp._parse_failed_downloads` of `spotdl_gui/app.py`. -/
def _parse_failed_downloads (output_lines : List String) : List String :=
  List.insertionSort recordLe
    (((guiScanLoop (output_lines.map String.data)).map (fun cs => String.mk cs)).dedup)

/-- A record in the shape of the generic audio-provider fallback. -/
def isFallbackRecord (s : String) : Bool :=
  isPrefixList fallbackMarker s.data

/-! ### Helper lemmas -/

theorem strLe_total : ∀ a b : List Char, strLe a b = true ∨ strLe b a = true
  | [], _ => Or.inl rfl
  | _ :: _, [] => Or.inr rfl
  | x :: xs, y :: ys => by
    rcases lt_trichotomy x y with h | h | h
    · exact Or.inl (by simp [strLe, h])
    · subst h
      rcases strLe_total xs ys with ih | ih
      · exact Or.inl (by simp [strLe, lt_irrefl, ih])
      · exact Or.inr (by simp [strLe, lt_irrefl, ih])
    · exact Or.inr (by simp [strLe, h])

theorem strLe_trans :
    ∀ a b c : List Char, strLe a b = true → strLe b c = true → strLe a c = true
  | [], _, _, _, _ => rfl
  | _ :: _, [], _, hab, _ => by simp [strLe] at hab
  | _ :: _, _ :: _, [], _, hbc => by simp [strLe] at hbc
  | x :: xs, y :: ys, z :: zs, hab, hbc => by
    rcases lt_trichotomy x y with h1 | h1 | h1
    · rcases lt_trichotomy y z with h2 | h2 | h2
      · simp [strLe, lt_trans h1 h2]
      · subst h2; simp [strLe, h1]
      · exfalso; simp [strLe, asymm h2, h2] at hbc
    · subst h1
      rcases lt_trichotomy x z with h2 | h2 | h2
      · simp [strLe, h2]
      · subst h2
        simp only [strLe, lt_irrefl, if_false] at hab hbc ⊢
        exact strLe_trans xs ys zs hab hbc
      · exfalso; simp [strLe, asymm h2, h2] at hbc
    · exfalso; simp [strLe, asymm h1, h1] at hab

theorem strLe_antisymm :
    ∀ a b : List Char, strLe a b = true → strLe b a = true → a = b
  | [], [], _, _ => rfl
  | [], _ :: _, _, hba => by simp [strLe] at hba
  | _ :: _, [], hab, _ => by simp [strLe] at hab
  | x :: xs, y :: ys, hab, hba => by
    rcases lt_trichotomy x y with h | h | h
    · exfalso; simp [strLe, h, asymm h] at hba
    · subst h
      have ih := strLe_antisymm xs ys
        (by simpa [strLe, lt_irrefl] using hab)
        (by simpa [strLe, lt_irrefl] using hba)
      rw [ih]
    · exfalso; simp [strLe, h, asymm h] at hab

instance : IsTotal String recordLe :=
  ⟨fun a b => strLe_total a.data b.data⟩

instance : IsTrans String recordLe :=
  ⟨fun a b c => strLe_trans a.data b.data c.data⟩

instance : IsAntisymm String recordLe :=
  ⟨fun a b hab hba => String.toList_inj.mp (strLe_antisymm a.data b.data hab hba)⟩

theorem strLe_iff_not_lex :
    ∀ a b : List Char, strLe a b = true ↔ ¬ List.Lex (· < ·) b a
  | [], b => by
    refine iff_of_true rfl (fun h => ?_)
    cases h
  | x :: xs, [] => by
    refine iff_of_false (by simp [strLe]) (fun h => h List.Lex.nil)
  | x :: xs, y :: ys => by
    rcases lt_trichotomy x y with h | h | h
    · refine iff_of_true (by simp [strLe, h]) (fun hl => ?_)
      cases hl with
      | cons hl => exact lt_irrefl x h
      | rel hr => exact lt_asymm h hr
    · subst h
      have ih := strLe_iff_not_lex xs ys
      constructor
      · intro hs hl
        cases hl with
        | cons hl => exact (ih.mp (by simpa [strLe, lt_irrefl] using hs)) hl
        | rel hr => exact lt_irrefl x hr
      · intro hnl
        have : ¬ List.Lex (· < ·) ys xs := fun hl => hnl (List.Lex.cons hl)
        simpa [strLe, lt_irrefl] using ih.mpr this
    · refine iff_of_false ?_ (fun hnl => hnl (List.Lex.rel h))
      simp [strLe, h, asymm h]

/-- The kernel-computable relation agrees with the library order on
`String` (both are code-point lexicographic). -/
theorem recordLe_iff_le (a b : String) : recordLe a b ↔ a ≤ b := by
  rw [recordLe, strLe_iff_not_lex]
  constructor
  · intro hnl hlt
    exact hnl (String.lt_iff_toList_lt.mp hlt)
  · intro hle hl
    exact hle (String.lt_iff_toList_lt.mpr hl)

theorem scanLoop_cons (line : List Char) (rest : List (List Char)) :
    scanLoop (line :: rest) = stepRecords line rest ++ scanLoop rest := by
  conv_lhs => rw [scanLoop]
  unfold stepRecords
  cases explicitGroup1 line with
  | some g =>
    by_cases h : pyStrip g = [] <;> simp [h]
  | none =>
    cases h2 : containsSub audioProviderMarker line with
    | true =>
      cases h3 : firstUrlInWindow ((line :: rest).take 4) <;> simp [h2, h3]
    | false => simp [h2]

theorem guiScanLoop_cons (line : List Char) (rest : List (List Char)) :
    guiScanLoop (line :: rest) = stepRecords line rest ++ guiScanLoop rest := by
  conv_lhs => rw [guiScanLoop]
  unfold stepRecords
  cases explicitGroup1 line with
  | some g =>
    by_cases h : pyStrip g = [] <;> simp [h]
  | none =>
    cases h2 : containsSub audioProviderMarker line with
    | true =>
      cases h3 : firstUrlInWindow ((line :: rest).take 4) <;> simp [h2, h3]
    | false => simp [h2]

theorem guiScanLoop_eq_scanLoop : ∀ ls : List (List Char), guiScanLoop ls = scanLoop ls
  | [] => rfl
  | line :: rest => by
    rw [guiScanLoop_cons, scanLoop_cons, guiScanLoop_eq_scanLoop rest]

theorem mem_parse_iff (L : List String) (r : String) :
    r ∈ parse_failed_downloads L ↔
      r ∈ (scanLoop (L.map String.data)).map (fun cs => String.mk cs) := by
  unfold parse_failed_downloads
  rw [List.mem_insertionSort, List.mem_dedup]

theorem firstUrlInWindow_append (w e : List (List Char)) (u : List Char)
    (h : firstUrlInWindow w = some u) : firstUrlInWindow (w ++ e) = some u := by
  induction w with
  | nil => simp [firstUrlInWindow] at h
  | cons l ls ih =>
    rw [List.cons_append]
    conv_lhs => rw [firstUrlInWindow]
    conv at h => rw [firstUrlInWindow]
    cases hs : urlSearch l with
    | some v => rw [hs] at h; exact h
    | none => rw [hs] at h; exact ih h

theorem isPrefixList_self_append (p t : List Char) : isPrefixList p (p ++ t) = true := by
  induction p with
  | nil => rfl
  | cons a as ih => simp [isPrefixList, ih]

theorem mem_scanLoop_append (pre suf : List (List Char)) (r : List Char)
    (h : r ∈ scanLoop suf) : r ∈ scanLoop (pre ++ suf) := by
  induction pre with
  | nil => exact h
  | cons p pre ih =>
    rw [List.cons_append, scanLoop_cons]
    exact List.mem_append_right _ ih

theorem scanLoop_extend (P S : List (List Char)) (r : List Char)
    (hr : r ∈ scanLoop P) (hnf : isPrefixList fallbackMarker r = false) :
    r ∈ scanLoop (P ++ S) := by
  induction P with
  | nil => simp [scanLoop] at hr
  | cons line P ih =>
    rw [scanLoop_cons] at hr
    rw [List.cons_append, scanLoop_cons]
    rcases List.mem_append.mp hr with hstep | htail
    · refine List.mem_append_left _ ?_
      unfold stepRecords at hstep ⊢
      cases hg : explicitGroup1 line with
      | some g => rw [hg] at hstep; exact hstep
      | none =>
        rw [hg] at hstep
        cases h2 : containsSub audioProviderMarker line with
        | false => rw [h2] at hstep; simp at hstep
        | true =>
          rw [h2] at hstep
          simp only [if_true] at hstep ⊢
          cases h3 : firstUrlInWindow ((line :: P).take 4) with
          | some u =>
            rw [h3] at hstep
            have hwin : (line :: (P ++ S)).take 4
                = (line :: P).take 4 ++ S.take (4 - (line :: P).length) := by
              rw [← List.cons_append, List.take_append_eq_append_take]
            rw [hwin, firstUrlInWindow_append _ _ _ h3]
            exact hstep
          | none =>
            rw [h3] at hstep
            simp only [if_true, List.mem_singleton] at hstep
            subst hstep
            have : isPrefixList fallbackMarker (fallbackRecord line) = true := by
              unfold fallbackRecord
              rw [List.append_assoc]
              exact isPrefixList_self_append _ _
            rw [this] at hnf
            cases hnf
    · exact List.mem_append_right _ (ih htail)

/-! ### The claims -/

/-- C1: the spec asserts that the single input line
`Could not find a match for: Song Title - Artist Name: reason text`
yields exactly the record "Song Title - Artist Name".  The code disagrees:
the first alternative of `explicit_failure_pattern` already ends in a
colon and the pattern then demands a further colon, so that alternative
only fires on a double colon; on the spec line the classifier returns the
empty list.  The second conjunct shows the double-colon variant of the
same line is what actually produces the record, exposing the slip. -/
theorem C1_literal_case_eval :
    parse_failed_downloads
        ["Could not find a match for: Song Title - Artist Name: reason text"] = [] ∧
    parse_failed_downloads
        ["Could not find a match for:: Song Title - Artist Name: reason text"]
      = ["Song Title - Artist Name"] := by
  constructor <;> decide

/-- C2 (counterexample): the prefix-subset property fails.  For the
one-line prefix the classifier returns the generic fallback record, and
after a line holding a YouTube URL arrives, that record is gone
(replaced by the URL-based record). -/
theorem C2_counterexample :
    String.mk (fallbackRecord "ERROR AudioProviderError: x".data)
        ∈ parse_failed_downloads ["ERROR AudioProviderError: x"] ∧
    String.mk (fallbackRecord "ERROR AudioProviderError: x".data)
        ∉ parse_failed_downloads
            ["ERROR AudioProviderError: x", "https://youtube.com/watch?v=a"] := by
  constructor <;> decide

/-- C2 (amended): every Failure Record the classifier returns for a
prefix, other than a generic audio-provider fallback record (one
beginning "Download failed due to AudioProviderError (details in
log: "), is also returned for the full sequence.  Fallback records may
be replaced by the URL-based record for the same trigger once later
lines bring a URL into the lookahead window. -/
theorem C2_amended_subset (P S : List String) (r : String)
    (hr : r ∈ parse_failed_downloads P) (hnf : isFallbackRecord r = false) :
    r ∈ parse_failed_downloads (P ++ S) := by
  rw [mem_parse_iff] at hr ⊢
  rcases List.mem_map.mp hr with ⟨cs, hcs, hmk⟩
  subst hmk
  refine List.mem_map_of_mem _ ?_
  rw [List.map_append]
  exact scanLoop_extend _ _ _ hcs hnf

/-- C2 (witness for the amended theorem at a concrete input). -/
theorem C2_amended_subset_witness :
    "Another Song" ∈ parse_failed_downloads
        (["Failed to download: Another Song"] ++ ["extra line"]) :=
  C2_amended_subset ["Failed to download: Another Song"] ["extra line"]
    "Another Song" (by decide) (by decide)

/-- C3: the classifier is a total function of its input (the embedding
is a plain recursive definition, so Lean certifies termination for every
input list and there is no failing path), and the empty input yields the
empty result. -/
theorem C3_total_and_empty :
    (∀ lines : List String, ∃ out : List String, parse_failed_downloads lines = out) ∧
    parse_failed_downloads [] = [] :=
  ⟨fun lines => ⟨parse_failed_downloads lines, rfl⟩, rfl⟩

/-- C4: for every input the result is lexicographically sorted (String
order is code-point lexicographic, as in Python) and duplicate-free; two
identical explicit-failure lines collapse to one record; and the output
depends only on the set of recorded strings — two inputs whose results
have the same members give identical (sorted) result sequences. -/
theorem C4_sorted_nodup_dedup :
    (∀ lines : List String, (parse_failed_downloads lines).Sorted (· ≤ ·) ∧
        (parse_failed_downloads lines).Nodup) ∧
    parse_failed_downloads ["Failed to download: X", "Failed to download: X"] = ["X"] ∧
    (∀ L1 L2 : List String,
        (∀ r, r ∈ parse_failed_downloads L1 ↔ r ∈ parse_failed_downloads L2) →
        parse_failed_downloads L1 = parse_failed_downloads L2) := by
  have hs : ∀ lines : List String, (parse_failed_downloads lines).Sorted (· ≤ ·) :=
    fun _ => (List.sorted_insertionSort recordLe _).imp
      (fun h => (recordLe_iff_le _ _).mp h)
  have hn : ∀ lines : List String, (parse_failed_downloads lines).Nodup :=
    fun _ => (List.perm_insertionSort _ _).nodup_iff.mpr (List.nodup_dedup _)
  refine ⟨fun l => ⟨hs l, hn l⟩, by decide, fun L1 L2 hext => ?_⟩
  exact List.eq_of_perm_of_sorted
    ((List.perm_ext_iff_of_nodup (hn L1) (hn L2)).mpr hext) (hs L1) (hs L2)

/-- C4 (witness): the ∀-ext hypothesis discharged at two inputs whose
lines are the same explicit failures in opposite orders. -/
theorem C4_sorted_nodup_dedup_witness :
    parse_failed_downloads ["Failed to download: B", "Failed to download: A"]
      = parse_failed_downloads ["Failed to download: A", "Failed to download: B"] :=
  C4_sorted_nodup_dedup.2.2
    ["Failed to download: B", "Failed to download: A"]
    ["Failed to download: A", "Failed to download: B"]
    (fun r => by
      have ha : parse_failed_downloads ["Failed to download: B", "Failed to download: A"]
          = ["A", "B"] := by decide
      have hb : parse_failed_downloads ["Failed to download: A", "Failed to download: B"]
          = ["A", "B"] := by decide
      rw [ha, hb])

/-- C5: `Failed to download: Another Song` yields exactly "Another
Song", and a captured value holding its own colon is truncated at the
first colon after the marker (`Failed to download: Song: Remix Version`
yields "Song"). -/
theorem C5_explicit_capture :
    parse_failed_downloads ["Failed to download: Another Song"] = ["Another Song"] ∧
    parse_failed_downloads ["Failed to download: Song: Remix Version"] = ["Song"] := by
  constructor <;> decide

/-- C6: when a non-explicit line holds the audio-provider marker and the
4-line window (the line and the next three) holds a YouTube watch URL,
the first URL found scanning the window in forward order is recorded as
"Download failed for YouTube URL: <url> (AudioProviderError)"; the
spec's three-line example yields exactly that one record. -/
theorem C6_audio_provider_url (line : String) (rest : List String) (u : List Char)
    (h1 : explicitGroup1 line.data = none)
    (h2 : containsSub audioProviderMarker line.data = true)
    (h3 : firstUrlInWindow ((line.data :: rest.map String.data).take 4) = some u) :
    String.mk (urlRecord u) ∈ parse_failed_downloads (line :: rest) ∧
    parse_failed_downloads ["ERROR AudioProviderError: something", "some noise",
        "https://music.youtube.com/watch?v=abc123XYZ_-"]
      = [String.mk (urlRecord "https://music.youtube.com/watch?v=abc123XYZ_-".data)] := by
  refine ⟨?_, by decide⟩
  rw [mem_parse_iff]
  refine List.mem_map_of_mem _ ?_
  rw [List.map_cons, scanLoop_cons]
  refine List.mem_append_left _ ?_
  unfold stepRecords
  simp only [List.take_succ_cons] at h3
  simp [h1, h2, h3]

/-- C6 (witness): the general statement applied at the spec's example. -/
theorem C6_audio_provider_url_witness :
    String.mk (urlRecord "https://music.youtube.com/watch?v=abc123XYZ_-".data)
        ∈ parse_failed_downloads ["ERROR AudioProviderError: something", "some noise",
            "https://music.youtube.com/watch?v=abc123XYZ_-"] :=
  (C6_audio_provider_url "ERROR AudioProviderError: something"
    ["some noise", "https://music.youtube.com/watch?v=abc123XYZ_-"]
    "https://music.youtube.com/watch?v=abc123XYZ_-".data
    (by decide) (by decide) (by decide)).1

/-- C7: when a trigger line has no YouTube URL anywhere in its 4-line
window (clipped at the end of the sequence), the generic fallback record
quoting the trigger line verbatim is produced; with the URL only on the
5th line after the trigger the result is exactly the fallback record and
not the URL-based form. -/
theorem C7_audio_provider_fallback (line : String) (rest : List String)
    (h1 : explicitGroup1 line.data = none)
    (h2 : containsSub audioProviderMarker line.data = true)
    (h3 : firstUrlInWindow ((line.data :: rest.map String.data).take 4) = none) :
    String.mk (fallbackRecord line.data) ∈ parse_failed_downloads (line :: rest) ∧
    parse_failed_downloads ["ERROR AudioProviderError: x", "n1", "n2", "n3", "n4",
        "https://youtube.com/watch?v=a"]
      = [String.mk (fallbackRecord "ERROR AudioProviderError: x".data)] := by
  refine ⟨?_, by decide⟩
  rw [mem_parse_iff]
  refine List.mem_map_of_mem _ ?_
  rw [List.map_cons, scanLoop_cons]
  refine List.mem_append_left _ ?_
  unfold stepRecords
  simp only [List.take_succ_cons] at h3
  simp [h1, h2, h3]

/-- C7 (witness): the general statement applied at the spec's
URL-outside-window example. -/
theorem C7_audio_provider_fallback_witness :
    String.mk (fallbackRecord "ERROR AudioProviderError: x".data)
        ∈ parse_failed_downloads ["ERROR AudioProviderError: x", "n1", "n2", "n3", "n4",
            "https://youtube.com/watch?v=a"] :=
  (C7_audio_provider_fallback "ERROR AudioProviderError: x"
    ["n1", "n2", "n3", "n4", "https://youtube.com/watch?v=a"]
    (by decide) (by decide) (by decide)).1

/-- C8: after any line is processed the cursor advances by exactly one
(the scan of `line :: rest` is the records of `line` followed by the
scan of `rest` alone), so lookahead lines stay eligible: every record
the classifier returns for a suffix of the input is still returned when
earlier lines — in particular an audio-provider trigger whose window
covers the suffix's lines — are prepended. -/
theorem C8_cursor_advance :
    (∀ (line : List Char) (rest : List (List Char)),
        scanLoop (line :: rest) = stepRecords line rest ++ scanLoop rest) ∧
    (∀ (pre suffix : List String) (r : String),
        r ∈ parse_failed_downloads suffix → r ∈ parse_failed_downloads (pre ++ suffix)) := by
  refine ⟨scanLoop_cons, fun pre suffix r hr => ?_⟩
  rw [mem_parse_iff] at hr ⊢
  rcases List.mem_map.mp hr with ⟨cs, hcs, hmk⟩
  subst hmk
  refine List.mem_map_of_mem _ ?_
  rw [List.map_append]
  exact mem_scanLoop_append _ _ _ hcs

/-- C8 (witness): an explicit-failure line lying inside the lookahead
window of a preceding audio-provider trigger still yields its record. -/
theorem C8_cursor_advance_witness :
    "Y" ∈ parse_failed_downloads
        (["ERROR AudioProviderError: x"]
          ++ ["Failed to download: Y", "https://youtube.com/watch?v=q"]) :=
  C8_cursor_advance.2 ["ERROR AudioProviderError: x"]
    ["Failed to download: Y", "https://youtube.com/watch?v=q"] "Y" (by decide)

/-- C9: the terminal front-end classifier and the GUI front-end copy
compute the same function on every input. -/
theorem C9_front_ends_agree :
    ∀ lines : List String, _parse_failed_downloads lines = parse_failed_downloads lines := by
  intro lines
  unfold _parse_failed_downloads parse_failed_downloads
  rw [guiScanLoop_eq_scanLoop]

/-- C10: a line on which the explicit pattern matches with a capture
that strips to empty produces no record but is still consumed: the scan
of `line :: rest` equals the scan of `rest`, so the audio-provider
branch is never applied to that line even if it holds the marker. -/
theorem C10_empty_capture_consumes (line : String) (rest : List String) (g : List Char)
    (h1 : explicitGroup1 line.data = some g)
    (h2 : pyStrip g = []) :
    scanLoop (line.data :: rest.map String.data) = scanLoop (rest.map String.data) ∧
    parse_failed_downloads (line :: rest) = parse_failed_downloads rest := by
  have hstep : stepRecords line.data (rest.map String.data) = [] := by
    unfold stepRecords
    rw [h1]
    simp [h2]
  have hsc : scanLoop (line.data :: rest.map String.data) = scanLoop (rest.map String.data) := by
    rw [scanLoop_cons, hstep, List.nil_append]
  refine ⟨hsc, ?_⟩
  unfold parse_failed_downloads
  rw [List.map_cons, hsc]

/-- C10 (witness): a line holding the audio-provider marker but matching
the explicit pattern with an empty capture is skipped entirely. -/
theorem C10_empty_capture_consumes_witness :
    scanLoop ("AudioProviderError: Failed to download:".data
        :: (["Failed to download: Z"].map String.data))
      = scanLoop (["Failed to download: Z"].map String.data) ∧
    parse_failed_downloads ["AudioProviderError: Failed to download:",
        "Failed to download: Z"]
      = parse_failed_downloads ["Failed to download: Z"] :=
  C10_empty_capture_consumes "AudioProviderError: Failed to download:"
    ["Failed to download: Z"] [] (by decide) (by decide)

end SpotdlWrape
